import Mathlib

/-!
Shallow embedding of the data-synchronization service
(`app/sync_service.py`, with the repository helpers it calls from
`app/models.py`), and proofs about the claims of the specification.

Modelling conventions:
* timestamps (`datetime`) are integers counting seconds; `timedelta(days=d)`
  is `d * 86400` seconds;
* JSON-ish payload dictionaries (`Dict[str, Any]`) are association lists
  with unique keys; payload values are modelled by `Val` (null, string,
  integer, or a flat string dictionary — the shapes the sync code paths
  inspect);
* code that catches an exception and returns a default is modelled by the
  corresponding total function; operations whose only failure mode matters
  to the spec (the cache write behind the sync checkpoint) carry an
  explicit fault flag in the state.
-/

/-- A JSON-ish payload value as stored in a `Dict[str, Any]` payload. -/
inductive Val where
  | null : Val
  | str : String → Val
  | int : Int → Val
  | dict : List (String × String) → Val
deriving DecidableEq

/-- Python truthiness of a payload value (`if value:`). -/
def Val.truthy : Val → Bool
  | .null => false
  | .str s => !(s == "")
  | .int n => !(n == 0)
  | .dict d => !d.isEmpty

/-- A payload dictionary (`Dict[str, Any]`); keys are unique. -/
abbrev Data := List (String × Val)

/-- `d.get(k)`: dictionary lookup (keys are unique, so first match). -/
def data_get (d : Data) (k : String) : Option Val :=
  (d.find? (fun kv => kv.1 == k)).map (fun kv => kv.2)

/-- `d.pop(k, None)`'s effect on the dictionary: remove the key. -/
def data_remove (d : Data) (k : String) : Data :=
  d.filter (fun kv => !(kv.1 == k))

/-- `SyncItem` dataclass: a single item for synchronization.
`updated_at` and `client_timestamp` are optional timestamps
(the code guards both with truthiness checks, i.e. against `None`). -/
structure SyncItem where
  table_name : String
  item_id : String
  user_id : String
  data : Data
  updated_at : Option Int
  operation : String
  client_timestamp : Option Int := none
  conflict_resolution : String := "server_wins"
deriving DecidableEq

/-- The `(table_name, item_id)` key used by every lookup dictionary. -/
def sync_key (x : SyncItem) : String × String :=
  (x.table_name, x.item_id)

/-- Sync configuration set in `SyncService.__init__`. -/
structure SyncConfig where
  sync_batch_size : Nat := 100
  max_sync_age_days : Int := 30
  conflict_resolution_strategy : String := "server_wins"
deriving DecidableEq

/-- The configuration as initialized by `SyncService.__init__`. -/
def default_config : SyncConfig := {}

/-- `self.syncable_tables` (in dependency order). -/
def syncable_tables : List String :=
  ["user_profiles", "lessons", "quizzes", "attempts", "errors",
   "user_progress", "quiz_attempts", "progress"]

/-- `SyncService._is_conflict`: items conflict when their data differ and
both timestamps are present and within 60 seconds of each other. -/
def is_conflict (c s : SyncItem) : Bool :=
  if c.data ≠ s.data then
    match c.client_timestamp, s.updated_at with
    | some ct, some ut => decide ((ct - ut).natAbs < 60)
    | _, _ => false
  else false

/-- The dict comprehension `{key(item): item for item in items}` followed by
`.get(key)`: a later item with the same key overwrites an earlier one. -/
def dict_lookup : List SyncItem → (String × String) → Option SyncItem
  | [], _ => none
  | it :: rest, k =>
    match dict_lookup rest k with
    | some r => some r
    | none => if sync_key it = k then some it else none

/-- `SyncService._detect_conflicts`: pair each client item with the server
item of the same key (if any) and keep the pairs flagged by `is_conflict`. -/
def detect_conflicts (client_data server_changes : List SyncItem) :
    List (SyncItem × SyncItem) :=
  client_data.filterMap (fun c =>
    match dict_lookup server_changes (sync_key c) with
    | some s => if is_conflict c s then some (c, s) else none
    | none => none)

/-- Loop body of `SyncService._resolve_conflicts`: the winning item of one
conflict under the given strategy. -/
def resolve_one (strategy : String) (p : SyncItem × SyncItem) : SyncItem :=
  if strategy = "server_wins" then p.2
  else if strategy = "client_wins" then p.1
  else
    match p.1.client_timestamp, p.2.updated_at with
    | some ct, some ut => if ct > ut then p.1 else p.2
    | _, _ => p.2

/-- `SyncService._resolve_conflicts`. -/
def resolve_conflicts (strategy : String)
    (conflicts : List (SyncItem × SyncItem)) : List SyncItem :=
  conflicts.map (resolve_one strategy)

/-- A `user_profiles` row (`UserProfile` in `models.py`), restricted to the
columns the sync code reads and writes: the three profile columns touched
by `_export_table_data` / `update_profile`, plus `updated_at` (bumped by
the `onupdate` clause, filtered on by `_get_table_changes`). -/
structure Profile where
  user_id : String
  display_name : Option String
  preferred_level : Option String
  settings : Option (List (String × String))
  updated_at : Int
deriving DecidableEq

/-- A repository call against one of the non-profile tables.  The claims
never observe these rows' contents, only whether and in which order the
calls happen, so the backing store records them as an event log. -/
inductive Effect where
  | progress_update (user_id : String) (lesson_id : Val) (data : Data)
  | attempt_create (data : Data)
  | error_create (data : Data)
  | progress_upsert (data : Data)
deriving DecidableEq

/-- The backing store behind the repositories. -/
structure DB where
  profiles : List Profile
  effects : List Effect
deriving DecidableEq

/-- Empty backing store. -/
def empty_db : DB := ⟨[], []⟩

/-- Append one repository call to the event log. -/
def add_effect (db : DB) (e : Effect) : DB :=
  { db with effects := db.effects ++ [e] }

/-- One `setattr` step of `UserProfileRepository.update_profile`:
`if hasattr(profile, field) and value is not None: setattr(...)`.
A `None` value, an unknown field, or a value whose type does not fit the
tracked column is a no-op on the tracked columns. -/
def apply_profile_field (p : Profile) (kv : String × Val) : Profile :=
  match kv with
  | ("user_id", .str v) => { p with user_id := v }
  | ("display_name", .str v) => { p with display_name := some v }
  | ("preferred_level", .str v) => { p with preferred_level := some v }
  | ("settings", .dict d) => { p with settings := some d }
  | _ => p

/-- Replace the first row whose `user_id` matches (the row returned by the
`.first()` query that `update_profile` mutates and commits). -/
def replace_profile : List Profile → String → Profile → List Profile
  | [], _, _ => []
  | r :: rs, uid, q =>
    if r.user_id == uid then q :: rs else r :: replace_profile rs uid q

/-- `UserProfileRepository.update_profile`: get or create the profile row
for `uid` (a created row starts with the column defaults, in particular
`settings = {}`), set every non-`None` field from the dictionary, commit
(which fires `onupdate`, refreshing `updated_at`). -/
def update_profile (db : DB) (uid : String) (data : Data) (now : Int) : DB :=
  match db.profiles.find? (fun p => p.user_id == uid) with
  | some p =>
    let p' := { data.foldl apply_profile_field p with updated_at := now }
    { db with profiles := replace_profile db.profiles uid p' }
  | none =>
    let base : Profile := ⟨uid, none, none, some [], now⟩
    let p' := { data.foldl apply_profile_field base with updated_at := now }
    { db with profiles := db.profiles ++ [p'] }

/-- The payload `_get_table_changes` builds for a profile row
(`settings or {}` collapses a missing settings dictionary to `{}`). -/
def profile_sync_data (p : Profile) : Data :=
  [("display_name", match p.display_name with | some s => .str s | none => .null),
   ("preferred_level", match p.preferred_level with | some s => .str s | none => .null),
   ("settings", .dict (p.settings.getD []))]

/-- `SyncService._get_table_changes`: only the `user_profiles` branch is
implemented in the source; it returns at most the one profile row of the
user, and only when `updated_at > since`.  Every other table contributes
nothing. -/
def get_table_changes (db : DB) (uid : String) (table_name : String)
    (since : Int) : List SyncItem :=
  if table_name = "user_profiles" then
    match db.profiles.find? (fun p => p.user_id == uid && since < p.updated_at) with
    | some p =>
      [{ table_name := "user_profiles", item_id := p.user_id, user_id := uid,
         data := profile_sync_data p, updated_at := some p.updated_at,
         operation := "update" }]
    | none => []
  else []

/-- `SyncService.get_incremental_changes`: default `since` is
`utcnow() - timedelta(days=max_sync_age_days)`; `table_names or
self.syncable_tables` also replaces an empty list by the default. -/
def get_incremental_changes (cfg : SyncConfig) (db : DB) (now : Int)
    (uid : String) (since : Option Int) (table_names : Option (List String)) :
    List SyncItem :=
  let since' := since.getD (now - cfg.max_sync_age_days * 86400)
  let tables :=
    match table_names with
    | none => syncable_tables
    | some l => if l.isEmpty then syncable_tables else l
  (tables.map (fun t => get_table_changes db uid t since')).flatten

/-- `AttemptCreate(**data)` succeeds only when the required fields are
present and not `None` (full pydantic type validation of the values is
not tracked; no claim depends on these adapters' payloads). -/
def validate_attempt_create (d : Data) : Bool :=
  ["user_id", "lesson_id", "quiz_id", "responses", "score", "eval"].all
    (fun k => match data_get d k with
      | some .null => false
      | some _ => true
      | none => false)

/-- `ErrorCreate(**data)`: required fields `user_id`, `error_type`. -/
def validate_error_create (d : Data) : Bool :=
  ["user_id", "error_type"].all
    (fun k => match data_get d k with
      | some .null => false
      | some _ => true
      | none => false)

/-- `ProgressCreate(**data)`: required fields `user_id`, `period`, `metrics`. -/
def validate_progress_create (d : Data) : Bool :=
  ["user_id", "period", "metrics"].all
    (fun k => match data_get d k with
      | some .null => false
      | some _ => true
      | none => false)

/-- `SyncService._sync_user_profile`: update the profile row, return True. -/
def sync_user_profile (now : Int) (db : DB) (item : SyncItem) : Bool × DB :=
  (true, update_profile db item.user_id item.data now)

/-- `SyncService._sync_user_progress`: pop `lesson_id` from the data; done
only when it is present and truthy, otherwise returns False. -/
def sync_user_progress (db : DB) (item : SyncItem) : Bool × DB :=
  let v := (data_get item.data "lesson_id").getD .null
  if v.truthy then
    (true, add_effect db (.progress_update item.user_id v
      (data_remove item.data "lesson_id")))
  else (false, db)

/-- `SyncService._sync_attempt`: `AttemptCreate(**data)` then create; a
validation error is caught by `_apply_sync_item` and becomes False. -/
def sync_attempt (db : DB) (item : SyncItem) : Bool × DB :=
  if validate_attempt_create item.data then
    (true, add_effect db (.attempt_create item.data))
  else (false, db)

/-- `SyncService._sync_error`. -/
def sync_error (db : DB) (item : SyncItem) : Bool × DB :=
  if validate_error_create item.data then
    (true, add_effect db (.error_create item.data))
  else (false, db)

/-- `SyncService._sync_progress`. -/
def sync_progress (db : DB) (item : SyncItem) : Bool × DB :=
  if validate_progress_create item.data then
    (true, add_effect db (.progress_upsert item.data))
  else (false, db)

/-- `SyncService._apply_sync_item`: dispatch on `table_name`; an unknown
table logs a warning and returns False (any exception from a handler is
caught and also becomes False). -/
def apply_sync_item (now : Int) (db : DB) (item : SyncItem) : Bool × DB :=
  if item.table_name = "user_profiles" then sync_user_profile now db item
  else if item.table_name = "user_progress" then sync_user_progress db item
  else if item.table_name = "quiz_attempts" then (true, db)
  else if item.table_name = "attempts" then sync_attempt db item
  else if item.table_name = "errors" then sync_error db item
  else if item.table_name = "progress" then sync_progress db item
  else (false, db)

/-- The skip guard in `SyncService._apply_client_changes`:
`conflict_item = conflict_lookup.get(key); if conflict_item and
conflict_item != client_item: continue`. -/
def is_skipped (resolved : List SyncItem) (c : SyncItem) : Bool :=
  match dict_lookup resolved (sync_key c) with
  | some w => decide (w ≠ c)
  | none => false

/-- Applying a list of items unconditionally, counting the successes. -/
def apply_sync_items (now : Int) (db : DB) : List SyncItem → Nat × DB
  | [] => (0, db)
  | c :: rest =>
    let r := apply_sync_item now db c
    let rec' := apply_sync_items now r.2 rest
    ((if r.1 then 1 else 0) + rec'.1, rec'.2)

/-- The loop of `SyncService._apply_client_changes`: skip items whose key
resolves to a different winning item, apply the rest, count successes. -/
def apply_client_loop (now : Int) (resolved : List SyncItem) (db : DB) :
    List SyncItem → Nat × DB
  | [] => (0, db)
  | c :: rest =>
    if is_skipped resolved c then apply_client_loop now resolved db rest
    else
      let r := apply_sync_item now db c
      let rec' := apply_client_loop now resolved r.2 rest
      ((if r.1 then 1 else 0) + rec'.1, rec'.2)

/-- `SyncService._apply_client_changes` (the `user_id` argument is unused
in the source as well). -/
def apply_client_changes (now : Int) (db : DB) (_user_id : String)
    (client_data resolved : List SyncItem) : Nat × DB :=
  apply_client_loop now resolved db client_data

/-- The key-value store behind the optional cache service.  `fail_write`
models a durable-write failure: when it is set, `set` raises (or, for the
backends that catch their own exceptions, returns False) instead of
storing the entry. -/
structure CacheState where
  entries : List (String × String)
  fail_write : Bool
deriving DecidableEq

/-- `cache_service.set(key, value, ...)`; `none` models the raised (or
swallowed-and-reported) backend failure, leaving the store unchanged. -/
def cache_write (c : CacheState) (k v : String) : Option CacheState :=
  if c.fail_write then none
  else some { c with entries :=
    (c.entries.filter (fun kv => !(kv.1 == k))) ++ [(k, v)] }

/-- Read one cache entry (`cache_service.get(key)`). -/
def cache_read (c : CacheState) (k : String) : Option String :=
  (c.entries.find? (fun kv => kv.1 == k)).map (fun kv => kv.2)

/-- `SyncService._update_last_sync`: write the checkpoint entry if a cache
service is configured; any failure is caught and logged, leaving both the
store and the control flow of the caller unchanged. -/
def update_last_sync (cache : Option CacheState) (uid : String) (ts : Int) :
    Option CacheState :=
  match cache with
  | none => none
  | some c =>
    match cache_write c ("last_sync:" ++ uid) (toString ts) with
    | some c' => some c'
    | none => some c

/-- `SyncService._get_last_sync`: the stored checkpoint for an owner (the
source parses the stored isoformat string back into a timestamp). -/
def get_last_sync (cache : Option CacheState) (uid : String) : Option String :=
  match cache with
  | none => none
  | some c => cache_read c ("last_sync:" ++ uid)

/-- The mutable state a `SyncService` closes over: the database behind the
repositories and the optional cache service holding the checkpoints. -/
structure SyncState where
  db : DB
  cache : Option CacheState
deriving DecidableEq

/-- `SyncResult` dataclass.  `sync_summary` is a string-keyed dictionary. -/
structure SyncResult where
  success : Bool
  items_synced : Nat
  conflicts_resolved : Nat
  errors : List String
  last_sync_timestamp : Int
  sync_summary : List (String × Val)
deriving DecidableEq

/-- `SyncService.sync_user_data`: read server changes since `last_sync`,
detect and resolve conflicts, apply the client changes, re-read server
changes, advance the checkpoint, and report.  All datetime reads within
the cycle are the single instant `now`.  Every step of the embedded cycle
is total (each helper catches its own exceptions), so the `except` branch
returning `success=False` is unreachable and the result always carries
`success=True`. -/
def sync_user_data (cfg : SyncConfig) (st : SyncState) (now : Int)
    (uid : String) (client_data : List SyncItem) (last_sync : Option Int) :
    SyncResult × SyncState :=
  let server_changes := get_incremental_changes cfg st.db now uid last_sync none
  let conflicts := detect_conflicts client_data server_changes
  let resolved := resolve_conflicts cfg.conflict_resolution_strategy conflicts
  let applied := apply_client_changes now st.db uid client_data resolved
  let updated_server_changes :=
    get_incremental_changes cfg applied.2 now uid last_sync none
  let cache' := update_last_sync st.cache uid now
  ({ success := true,
     items_synced := client_data.length + updated_server_changes.length,
     conflicts_resolved := resolved.length,
     errors := [],
     last_sync_timestamp := now,
     sync_summary :=
       [("client_items_applied", .int applied.1),
        ("server_items_for_client", .int updated_server_changes.length),
        ("conflicts", .int conflicts.length),
        ("sync_timestamp", .str (toString now))] },
   { db := applied.2, cache := cache' })

/-- An entry of the offline actions list handed to `push_offline_queue`
(a dictionary; the fields the code reads). -/
structure OfflineAction where
  action_id : Option String
  action_type : Option String
  action_data : Data
deriving DecidableEq

/-- `SyncService._process_offline_action`: dispatch on `action['type']`;
every unknown or ill-formed action, and every exception from a repository
call, ends in False.  The function itself never raises. -/
def process_offline_action (now : Int) (db : DB) (uid : String)
    (a : OfflineAction) : Bool × DB :=
  if a.action_type == some "lesson_view" then
    let v := (data_get a.action_data "lesson_id").getD .null
    if v.truthy then
      (true, add_effect db (.progress_update uid v [("lesson_views", .int 1)]))
    else (false, db)
  else if a.action_type == some "quiz_attempt" then
    let qd := (data_get a.action_data "quiz_data").getD (.dict [])
    if qd.truthy then (true, db) else (false, db)
  else if a.action_type == some "profile_update" then
    let pd := (data_get a.action_data "profile_data").getD (.dict [])
    if pd.truthy then
      match pd with
      | .dict d =>
        (true, update_profile db uid (d.map (fun kv => (kv.1, Val.str kv.2))) now)
      | _ => (false, db)
    else (false, db)
  else (false, db)

/-- Whether an offline action is processed successfully; the outcome of
`_process_offline_action` depends only on the action itself. -/
def action_succeeds (a : OfflineAction) : Bool :=
  if a.action_type == some "lesson_view" then
    ((data_get a.action_data "lesson_id").getD .null).truthy
  else if a.action_type == some "quiz_attempt" then
    ((data_get a.action_data "quiz_data").getD (.dict [])).truthy
  else if a.action_type == some "profile_update" then
    match (data_get a.action_data "profile_data").getD (.dict []) with
    | .dict d => !d.isEmpty
    | _ => false
  else false

/-- The loop of `push_offline_queue`: count the actions whose processing
returns True, thread the store.  The surrounding `try/except` that would
collect error messages can only fire when `_process_offline_action`
raises, which it never does (it catches internally), so the `errors` list
of the result stays empty. -/
def push_offline_loop (now : Int) (uid : String) (db : DB) :
    List OfflineAction → Nat × DB
  | [] => (0, db)
  | a :: rest =>
    let r := process_offline_action now db uid a
    let rec' := push_offline_loop now uid r.2 rest
    ((if r.1 then 1 else 0) + rec'.1, rec'.2)

/-- `SyncService.push_offline_queue`. -/
def push_offline_queue (now : Int) (db : DB) (uid : String)
    (offline_actions : List OfflineAction) : SyncResult × DB :=
  let processed := push_offline_loop now uid db offline_actions
  ({ success := true,
     items_synced := processed.1,
     conflicts_resolved := 0,
     errors := [],
     last_sync_timestamp := now,
     sync_summary :=
       [("offline_actions_processed", .int processed.1),
        ("failed_actions", .int 0)] },
   processed.2)

/-- `SyncService._export_table_data`: only the `user_profiles` branch is
implemented; it exports the user's profile row (if any) as a dictionary,
with `settings or {}` collapsing missing settings to `{}`. -/
def export_table_data (db : DB) (uid : String) (table_name : String) :
    List Data :=
  if table_name = "user_profiles" then
    match db.profiles.find? (fun p => p.user_id == uid) with
    | some p =>
      [[("user_id", .str p.user_id),
        ("display_name",
          match p.display_name with | some s => .str s | none => .null),
        ("preferred_level",
          match p.preferred_level with | some s => .str s | none => .null),
        ("settings", .dict (p.settings.getD []))]]
    | none => []
  else []

/-- `SyncService.export_user_data`: the `data` map of the export, one entry
per syncable table (the surrounding `user_id` / `export_timestamp` fields
carry no table data). -/
def export_user_data (db : DB) (uid : String) : List (String × List Data) :=
  syncable_tables.map (fun t => (t, export_table_data db uid t))

/-- `SyncService._import_table_data` (the `merge_strategy` argument is
unused in the source: both strategies run `update_profile` per item). -/
def table_data_import (db : DB) (uid : String) (table_name : String)
    (table_data : List Data) (_merge_strategy : String) (now : Int) : DB :=
  if table_name = "user_profiles" then
    table_data.foldl (fun d item => update_profile d uid item now) db
  else db

/-- `SyncService.import_user_data`: run the per-table import for every
table of the snapshot that is a syncable table; the embedded cycle is
total, so the result is always True. -/
def user_data_import (db : DB) (uid : String)
    (import_data : List (String × List Data)) (merge_strategy : String)
    (now : Int) : Bool × DB :=
  (true, import_data.foldl
     (fun d td =>
       if td.1 ∈ syncable_tables then
         table_data_import d uid td.1 td.2 merge_strategy now
       else d)
     db)

/-! ### General lemmas about the embedded operations -/

/-- An item found by a lookup dictionary is one of the dictionary's items
and carries the looked-up key. -/
theorem dict_lookup_mem {items : List SyncItem} {k : String × String}
    {s : SyncItem} (h : dict_lookup items k = some s) :
    s ∈ items ∧ sync_key s = k := by
  induction items with
  | nil => simp [dict_lookup] at h
  | cons it rest ih =>
    unfold dict_lookup at h
    cases hrest : dict_lookup rest k with
    | some r =>
      rw [hrest] at h
      cases h
      have := ih hrest
      exact ⟨List.mem_cons_of_mem _ this.1, this.2⟩
    | none =>
      rw [hrest] at h
      by_cases hk : sync_key it = k
      · rw [if_pos hk] at h
        cases h
        exact ⟨List.mem_cons_self _ _, hk⟩
      · rw [if_neg hk] at h
        cases h

/-- When the items have pairwise distinct keys, the lookup dictionary finds
every member at its key. -/
theorem dict_lookup_of_mem {items : List SyncItem} {k : String × String}
    {s : SyncItem}
    (hdist : items.Pairwise (fun a b => sync_key a ≠ sync_key b))
    (hmem : s ∈ items) (hk : sync_key s = k) :
    dict_lookup items k = some s := by
  induction items with
  | nil => cases hmem
  | cons it rest ih =>
    rcases List.mem_cons.mp hmem with rfl | hmem'
    · have hnone : dict_lookup rest k = none := by
        cases hq : dict_lookup rest k with
        | none => rfl
        | some r =>
          have hr := dict_lookup_mem hq
          have hne : sync_key s ≠ sync_key r :=
            (List.pairwise_cons.mp hdist).1 r hr.1
          exact absurd (hk.trans hr.2.symm) hne
      unfold dict_lookup
      rw [hnone, if_pos hk]
    · have := ih (List.pairwise_cons.mp hdist).2 hmem'
      unfold dict_lookup
      rw [this]

/-- Characterization of `is_conflict` by its three conditions. -/
theorem is_conflict_iff (c s : SyncItem) :
    is_conflict c s = true ↔
      c.data ≠ s.data ∧ ∃ ct ut, c.client_timestamp = some ct ∧
        s.updated_at = some ut ∧ (ct - ut).natAbs < 60 := by
  unfold is_conflict
  by_cases hd : c.data = s.data
  · simp [hd]
  · rw [if_pos hd]
    cases hct : c.client_timestamp with
    | none => simp [hd, hct]
    | some ct =>
      cases hut : s.updated_at with
      | none => simp [hd, hct, hut]
      | some ut => simp [hd, hct, hut]

/-- Membership in the detected conflicts, in terms of the lookup. -/
theorem mem_detect_conflicts {cd sc : List SyncItem} {c s : SyncItem} :
    (c, s) ∈ detect_conflicts cd sc ↔
      c ∈ cd ∧ dict_lookup sc (sync_key c) = some s ∧
        is_conflict c s = true := by
  unfold detect_conflicts
  rw [List.mem_filterMap]
  constructor
  · rintro ⟨a, ha, hf⟩
    cases hlk : dict_lookup sc (sync_key a) with
    | none => rw [hlk] at hf; cases hf
    | some s' =>
      rw [hlk] at hf
      dsimp only at hf
      by_cases hc : is_conflict a s' = true
      · rw [if_pos hc] at hf
        obtain ⟨rfl, rfl⟩ := Prod.mk.injEq .. ▸ Option.some.inj hf
        exact ⟨ha, hlk, hc⟩
      · rw [if_neg hc] at hf
        cases hf
  · rintro ⟨hc, hlk, hconf⟩
    refine ⟨c, hc, ?_⟩
    rw [hlk]
    dsimp only
    rw [if_pos hconf]

/-- The outcome of processing one offline action depends only on the
action, not on the store. -/
theorem process_offline_action_fst (now : Int) (db : DB) (uid : String)
    (a : OfflineAction) :
    (process_offline_action now db uid a).1 = action_succeeds a := by
  unfold process_offline_action action_succeeds
  by_cases h1 : (a.action_type == some "lesson_view") = true
  · simp only [if_pos h1]
    cases hv : ((data_get a.action_data "lesson_id").getD .null).truthy <;>
      simp [hv]
  · simp only [if_neg h1]
    by_cases h2 : (a.action_type == some "quiz_attempt") = true
    · simp only [if_pos h2]
      cases hv : ((data_get a.action_data "quiz_data").getD (.dict [])).truthy <;>
        simp [hv]
    · simp only [if_neg h2]
      by_cases h3 : (a.action_type == some "profile_update") = true
      · simp only [if_pos h3]
        rcases hpd : (data_get a.action_data "profile_data").getD (.dict [])
          with _ | sv | nv | dv
        · simp [Val.truthy]
        · cases hs : (sv == "") <;> simp [Val.truthy, hs]
        · cases hn : (nv == 0) <;> simp [Val.truthy, hn]
        · cases hd : dv.isEmpty <;> simp [Val.truthy, hd]
      · simp only [if_neg h3]

/-- The drain loop counts exactly the actions whose processing succeeds. -/
theorem push_offline_loop_count (now : Int) (uid : String) :
    ∀ (actions : List OfflineAction) (db : DB),
      (push_offline_loop now uid db actions).1 =
        actions.countP action_succeeds := by
  intro actions
  induction actions with
  | nil => intro db; rfl
  | cons a rest ih =>
    intro db
    simp only [push_offline_loop]
    rw [ih, process_offline_action_fst, List.countP_cons]
    cases action_succeeds a <;> simp [Nat.add_comm]

/-! ### Concrete inputs used by counterexamples and witnesses -/

/-- A client item whose table is not handled by `_apply_sync_item`. -/
def unknown_table_item : SyncItem :=
  { table_name := "bogus", item_id := "x1", user_id := "u1",
    data := [], updated_at := none, operation := "update" }

/-- An offline action with an unrecognized type. -/
def unknown_type_action : OfflineAction :=
  ⟨some "a1", some "bogus", []⟩

/-- A `lesson_view` offline action missing its `lesson_id`. -/
def lesson_view_without_id : OfflineAction :=
  ⟨some "a2", some "lesson_view", [("other", .int 3)]⟩

/-! ### Claim theorems -/

/-- Claim C1, counterexample: with a cache whose durable write fails, the
checkpoint advance fails, yet the cycle reports `success = true` — not
`success = false` as claimed — while the stored checkpoint for the owner
is indeed unchanged. -/
theorem checkpoint_write_failure_reports_success_cex :
    (sync_user_data default_config
        ⟨empty_db, some ⟨[("last_sync:u1", "100")], true⟩⟩
        200 "u1" [] none).1.success = true ∧
    (sync_user_data default_config
        ⟨empty_db, some ⟨[("last_sync:u1", "100")], true⟩⟩
        200 "u1" [] none).2.cache = some ⟨[("last_sync:u1", "100")], true⟩ ∧
    get_last_sync (sync_user_data default_config
        ⟨empty_db, some ⟨[("last_sync:u1", "100")], true⟩⟩
        200 "u1" [] none).2.cache "u1" = some "100" := by
  decide

/-- Claim C1, amended: whenever the durable write of the last-sync
timestamp fails, `_update_last_sync` swallows the failure: the cycle still
reports `success = true`, and the stored checkpoint for that owner is
unchanged from its value before the cycle. -/
theorem checkpoint_write_failure_swallowed
    (entries : List (String × String)) (db : DB) (now : Int) (uid : String)
    (cd : List SyncItem) (last : Option Int) :
    (sync_user_data default_config ⟨db, some ⟨entries, true⟩⟩
        now uid cd last).1.success = true ∧
    (sync_user_data default_config ⟨db, some ⟨entries, true⟩⟩
        now uid cd last).2.cache = some ⟨entries, true⟩ :=
  ⟨rfl, rfl⟩

/-- Claim C3, counterexample: a queued offline entry whose application
fails (here: an action with an unrecognized type) is not retried — the
code keeps no retry count and has no queue to retain it in — and it is not
surfaced to the caller either: the drain result reports success with an
empty error list, zero failed actions, and an unchanged store. -/
theorem offline_queue_failure_silently_dropped_cex :
    push_offline_queue 5 empty_db "u1" [unknown_type_action] =
      ({ success := true, items_synced := 0, conflicts_resolved := 0,
         errors := [], last_sync_timestamp := 5,
         sync_summary := [("offline_actions_processed", .int 0),
                          ("failed_actions", .int 0)] },
       empty_db) := by
  decide

/-- Claim C3, amended: the drain keeps no retry count and marks nothing
poison; a failing entry is silently dropped.  For every queue the drain
reports `success = true`, an empty error list and zero failed actions,
and counts as processed exactly the entries whose handler succeeds. -/
theorem offline_queue_no_retry_tracking (now : Int) (db : DB) (uid : String)
    (actions : List OfflineAction) :
    (push_offline_queue now db uid actions).1.success = true ∧
    (push_offline_queue now db uid actions).1.errors = [] ∧
    data_get (push_offline_queue now db uid actions).1.sync_summary
      "failed_actions" = some (.int 0) ∧
    (push_offline_queue now db uid actions).1.items_synced =
      actions.countP action_succeeds :=
  ⟨rfl, rfl, rfl, push_offline_loop_count now uid actions db⟩

/-- Claim C4, counterexample: one client change whose table is unknown is
not applied (`client_items_applied = 0`) and no server change is returned,
yet `synced_count` is 1, not 0: it counts the submitted client changes,
not the applied ones. -/
theorem synced_count_counts_submitted_cex :
    (sync_user_data default_config ⟨empty_db, none⟩ 0 "u1"
        [unknown_table_item] none).1.items_synced = 1 ∧
    data_get (sync_user_data default_config ⟨empty_db, none⟩ 0 "u1"
        [unknown_table_item] none).1.sync_summary "client_items_applied" =
      some (.int 0) ∧
    data_get (sync_user_data default_config ⟨empty_db, none⟩ 0 "u1"
        [unknown_table_item] none).1.sync_summary "server_items_for_client" =
      some (.int 0) := by
  decide

/-- Claim C4, amended: for every sync cycle, `synced_count` equals the
number of client changes submitted (whether or not they were applied)
plus the number of server changes returned to the caller. -/
theorem synced_count_submitted_plus_server (cfg : SyncConfig)
    (st : SyncState) (now : Int) (uid : String) (cd : List SyncItem)
    (last : Option Int) :
    (sync_user_data cfg st now uid cd last).1.items_synced =
      cd.length +
        (get_incremental_changes cfg
          (apply_client_changes now st.db uid cd
            (resolve_conflicts cfg.conflict_resolution_strategy
              (detect_conflicts cd
                (get_incremental_changes cfg st.db now uid last none)))).2
          now uid last none).length :=
  rfl

/-- Claim C5: under the timestamp-wins strategy the resolver emits the
client change exactly when `client_timestamp` is strictly greater than
`server.updated_at`; on a tie, and whenever either timestamp is missing,
it emits the server change. -/
theorem timestamp_strategy_resolution (c s : SyncItem) :
    (∀ ct ut, c.client_timestamp = some ct → s.updated_at = some ut →
      resolve_one "timestamp" (c, s) = if ut < ct then c else s)
    ∧ ((c.client_timestamp = none ∨ s.updated_at = none) →
      resolve_one "timestamp" (c, s) = s) := by
  constructor
  · intro ct ut h1 h2
    unfold resolve_one
    rw [if_neg (by decide), if_neg (by decide)]
    dsimp only
    rw [h1, h2]
  · rintro (h | h)
    · unfold resolve_one
      rw [if_neg (by decide), if_neg (by decide)]
      dsimp only
      rw [h]
    · unfold resolve_one
      rw [if_neg (by decide), if_neg (by decide)]
      dsimp only
      rw [h]
      cases c.client_timestamp <;> rfl

/-- Client side of a conflict whose timestamp is strictly newer. -/
def newer_client : SyncItem :=
  { table_name := "user_profiles", item_id := "u1", user_id := "u1",
    data := [("display_name", .str "C")], updated_at := some 130,
    operation := "update", client_timestamp := some 130 }

/-- Server side of a conflict, older than `newer_client`. -/
def older_server : SyncItem :=
  { table_name := "user_profiles", item_id := "u1", user_id := "u1",
    data := [("display_name", .str "S")], updated_at := some 100,
    operation := "update" }

/-- Server side of a conflict with the same timestamp as `newer_client`. -/
def tied_server : SyncItem :=
  { table_name := "user_profiles", item_id := "u1", user_id := "u1",
    data := [("display_name", .str "T")], updated_at := some 130,
    operation := "update" }

/-- Client item with no `client_timestamp`. -/
def untimed_client : SyncItem :=
  { table_name := "user_profiles", item_id := "u1", user_id := "u1",
    data := [("display_name", .str "U")], updated_at := none,
    operation := "update", client_timestamp := none }

/-- Witness for claim C5: a strictly newer client wins, a tie goes to the
server, and a missing timestamp goes to the server. -/
theorem timestamp_strategy_resolution_witness :
    resolve_one "timestamp" (newer_client, older_server) = newer_client ∧
    resolve_one "timestamp" (newer_client, tied_server) = tied_server ∧
    resolve_one "timestamp" (untimed_client, older_server) = older_server := by
  refine ⟨?_, ?_, ?_⟩
  · rw [(timestamp_strategy_resolution newer_client older_server).1
      130 100 rfl rfl]
    decide
  · rw [(timestamp_strategy_resolution newer_client tied_server).1
      130 130 rfl rfl]
    decide
  · exact (timestamp_strategy_resolution untimed_client older_server).2
      (Or.inl rfl)

/-- Claim C7: a change set whose `table_name` is not one of the handled
entity types is not applied — `_apply_sync_item` logs a warning and
returns False, leaving the store untouched — and the cycle is not
aborted: every sync cycle's result reports `success = true`. -/
theorem unknown_table_nonfatal :
    (∀ (now : Int) (db : DB) (item : SyncItem),
       item.table_name ∉ ["user_profiles", "user_progress", "quiz_attempts",
         "attempts", "errors", "progress"] →
       apply_sync_item now db item = (false, db))
    ∧ (∀ cfg st now uid cd last,
       (sync_user_data cfg st now uid cd last).1.success = true) := by
  constructor
  · intro now db item h
    simp only [List.mem_cons, List.not_mem_nil, or_false] at h
    push_neg at h
    obtain ⟨h1, h2, h3, h4, h5, h6⟩ := h
    unfold apply_sync_item
    rw [if_neg h1, if_neg h2, if_neg h3, if_neg h4, if_neg h5, if_neg h6]
  · intro cfg st now uid cd last
    rfl

/-- Witness for claim C7: an item with table `bogus` is reported as not
applied while the cycle containing it still succeeds. -/
theorem unknown_table_nonfatal_witness :
    apply_sync_item 0 empty_db unknown_table_item = (false, empty_db) ∧
    (sync_user_data default_config ⟨empty_db, none⟩ 0 "u1"
        [unknown_table_item] none).1.success = true :=
  ⟨unknown_table_nonfatal.1 0 empty_db unknown_table_item (by decide),
   unknown_table_nonfatal.2 default_config ⟨empty_db, none⟩ 0 "u1"
     [unknown_table_item] none⟩

/-- Claim C9: when no `last_sync` timestamp is given, the incremental read
(with the default configuration, `max_sync_age_days = 30`) returns only
records updated strictly within the last 30 days of `now`, not the
owner's full history. -/
theorem incremental_changes_bounded_age
    (db : DB) (now : Int) (uid : String) (item : SyncItem)
    (h : item ∈ get_incremental_changes default_config db now uid none none) :
    ∃ t, item.updated_at = some t ∧ now - 30 * 86400 < t := by
  unfold get_incremental_changes at h
  simp only [List.mem_flatten, List.mem_map] at h
  obtain ⟨l, ⟨tbl, htbl, rfl⟩, hi⟩ := h
  unfold get_table_changes at hi
  by_cases he : tbl = "user_profiles"
  · rw [if_pos he] at hi
    cases hf : db.profiles.find? (fun p => p.user_id == uid &&
        decide ((Option.getD none
          (now - default_config.max_sync_age_days * 86400)) < p.updated_at)) with
    | none => rw [hf] at hi; cases hi
    | some p =>
      rw [hf] at hi
      have hp := List.find?_some hf
      have hlt := (Bool.and_eq_true .. ▸ hp).2
      rcases List.mem_singleton.mp hi with rfl
      refine ⟨p.updated_at, rfl, ?_⟩
      have := of_decide_eq_true hlt
      simpa [default_config] using this
  · rw [if_neg he] at hi
    cases hi

/-- A store holding one profile updated recently (at time 50). -/
def fresh_profile_db : DB := ⟨[⟨"u2", none, none, none, 50⟩], []⟩

/-- The sync item the incremental read derives from `fresh_profile_db`. -/
def fresh_profile_item : SyncItem :=
  { table_name := "user_profiles", item_id := "u2", user_id := "u2",
    data := [("display_name", .null), ("preferred_level", .null),
             ("settings", .dict [])],
    updated_at := some 50, operation := "update" }

/-- Witness for claim C9. -/
theorem incremental_changes_bounded_age_witness :
    fresh_profile_item ∈
      get_incremental_changes default_config fresh_profile_db 100 "u2"
        none none ∧
    ∃ t, fresh_profile_item.updated_at = some t ∧ 100 - 30 * 86400 < t :=
  ⟨by decide,
   incremental_changes_bounded_age fresh_profile_db 100 "u2"
     fresh_profile_item (by decide)⟩

/-- Claim C10: an offline action whose handler returns False without
raising is counted neither in the processed count nor in the errors list;
with two such actions (a `lesson_view` without `lesson_id` and an
unrecognized type) processed plus failed is strictly less than the number
of submitted actions. -/
theorem offline_drain_counts :
    (∀ (now : Int) (db : DB) (uid : String) (actions : List OfflineAction),
       (push_offline_queue now db uid actions).1.items_synced =
         actions.countP action_succeeds ∧
       (push_offline_queue now db uid actions).1.errors = [])
    ∧ ((push_offline_queue 5 empty_db "u1"
          [lesson_view_without_id, unknown_type_action]).1.items_synced
        + (push_offline_queue 5 empty_db "u1"
          [lesson_view_without_id, unknown_type_action]).1.errors.length
        < 2) := by
  constructor
  · intro now db uid actions
    exact ⟨push_offline_loop_count now uid actions db, rfl⟩
  · decide

/-- Claim C2: for server changes with pairwise-distinct keys (every server
list the service builds has at most one change per key), a client/server
pair with the same key is flagged as a conflict iff their payloads differ,
both timestamps are present, and the timestamps are less than 60 seconds
apart; in particular a pair with an absent timestamp is never flagged. -/
theorem conflict_detection_characterization
    (cd sc : List SyncItem) (c s : SyncItem)
    (hdist : sc.Pairwise (fun a b => sync_key a ≠ sync_key b)) :
    (c, s) ∈ detect_conflicts cd sc ↔
      (c ∈ cd ∧ s ∈ sc ∧ sync_key s = sync_key c ∧ c.data ≠ s.data ∧
        ∃ ct ut, c.client_timestamp = some ct ∧ s.updated_at = some ut ∧
          (ct - ut).natAbs < 60) := by
  rw [mem_detect_conflicts]
  constructor
  · rintro ⟨hc, hlk, hconf⟩
    obtain ⟨hm, hk⟩ := dict_lookup_mem hlk
    obtain ⟨hd, hts⟩ := (is_conflict_iff c s).mp hconf
    exact ⟨hc, hm, hk, hd, hts⟩
  · rintro ⟨hc, hm, hk, hd, hts⟩
    exact ⟨hc, dict_lookup_of_mem hdist hm hk,
      (is_conflict_iff c s).mpr ⟨hd, hts⟩⟩

/-- Witness for claim C2: `newer_client` against `older_server` (payloads
differ, both timestamps present, 30 seconds apart) is flagged. -/
theorem conflict_detection_characterization_witness :
    (newer_client, older_server) ∈
      detect_conflicts [newer_client] [older_server] :=
  (conflict_detection_characterization [newer_client] [older_server]
      newer_client older_server (by simp)).mpr
    ⟨by simp, by simp, rfl, by decide, 130, 100, rfl, rfl, by decide⟩

/-- Two booleans agreeing as propositions are equal. -/
theorem bool_eq_of_iff {a b : Bool} (h : a = true ↔ b = true) : a = b := by
  cases a <;> cases b <;> simp_all

/-- The resolver emits one of the two sides of the conflict. -/
theorem resolve_one_eq_or (strategy : String) (p : SyncItem × SyncItem) :
    resolve_one strategy p = p.1 ∨ resolve_one strategy p = p.2 := by
  unfold resolve_one
  by_cases h1 : strategy = "server_wins"
  · rw [if_pos h1]; exact Or.inr rfl
  · rw [if_neg h1]
    by_cases h2 : strategy = "client_wins"
    · rw [if_pos h2]; exact Or.inl rfl
    · rw [if_neg h2]
      cases p.1.client_timestamp with
      | none => exact Or.inr rfl
      | some ct =>
        cases p.2.updated_at with
        | none => exact Or.inr rfl
        | some ut =>
          dsimp only
          by_cases h3 : ct > ut
          · rw [if_pos h3]; exact Or.inl rfl
          · rw [if_neg h3]; exact Or.inr rfl

/-- Every detected conflict pairs a client item with a server item of the
same key that it conflicts with. -/
theorem mem_detect_parts {cd sc : List SyncItem} {p : SyncItem × SyncItem}
    (h : p ∈ detect_conflicts cd sc) :
    p.1 ∈ cd ∧ sync_key p.2 = sync_key p.1 ∧ is_conflict p.1 p.2 = true := by
  obtain ⟨c, s⟩ := p
  obtain ⟨hc, hlk, hconf⟩ := mem_detect_conflicts.mp h
  exact ⟨hc, (dict_lookup_mem hlk).2, hconf⟩

/-- Conflicting items have different payloads, so they are different. -/
theorem is_conflict_ne {c s : SyncItem} (h : is_conflict c s = true) :
    s ≠ c := by
  intro he
  obtain ⟨hd, -⟩ := (is_conflict_iff c s).mp h
  exact hd (he ▸ rfl)

/-- The winner of a detected conflict carries the client item's key. -/
theorem resolve_one_key {cd sc : List SyncItem} (strategy : String)
    {p : SyncItem × SyncItem} (h : p ∈ detect_conflicts cd sc) :
    sync_key (resolve_one strategy p) = sync_key p.1 := by
  rcases resolve_one_eq_or strategy p with hw | hw
  · rw [hw]
  · rw [hw]
    exact (mem_detect_parts h).2.1

/-- The client sides of the detected conflicts form a sublist of the
client data. -/
theorem detect_firsts_sublist (cd sc : List SyncItem) :
    ((detect_conflicts cd sc).map Prod.fst).Sublist cd := by
  induction cd with
  | nil => simp [detect_conflicts]
  | cons c rest ih =>
    unfold detect_conflicts at ih ⊢
    rw [List.filterMap_cons]
    cases dict_lookup sc (sync_key c) with
    | none => exact ih.cons c
    | some s =>
      dsimp only
      by_cases hc : is_conflict c s = true
      · rw [if_pos hc, List.map_cons]
        exact ih.cons₂ c
      · rw [if_neg hc]
        exact ih.cons c

/-- Mapping a key-preserving function over a list of conflicts preserves
pairwise key-distinctness. -/
theorem pairwise_map_of_key {l : List (SyncItem × SyncItem)}
    {f : SyncItem × SyncItem → SyncItem}
    (hk : ∀ p ∈ l, sync_key (f p) = sync_key p.1)
    (h : l.Pairwise (fun p q => sync_key p.1 ≠ sync_key q.1)) :
    (l.map f).Pairwise (fun a b => sync_key a ≠ sync_key b) := by
  induction l with
  | nil => simp
  | cons p rest ih =>
    rw [List.map_cons, List.pairwise_cons]
    rw [List.pairwise_cons] at h
    constructor
    · intro b hb
      obtain ⟨q, hq, rfl⟩ := List.mem_map.mp hb
      rw [hk p (List.mem_cons_self _ _), hk q (List.mem_cons_of_mem _ hq)]
      exact h.1 q hq
    · exact ih (fun q hq => hk q (List.mem_cons_of_mem _ hq)) h.2

/-- With pairwise-distinct client keys, the detected conflicts have
pairwise-distinct client keys. -/
theorem detect_pairwise {cd : List SyncItem} (sc : List SyncItem)
    (hdist : cd.Pairwise (fun a b => sync_key a ≠ sync_key b)) :
    (detect_conflicts cd sc).Pairwise
      (fun p q => sync_key p.1 ≠ sync_key q.1) := by
  induction cd with
  | nil => simp [detect_conflicts]
  | cons c rest ih =>
    rw [List.pairwise_cons] at hdist
    unfold detect_conflicts
    rw [List.filterMap_cons]
    have htail := ih hdist.2
    cases dict_lookup sc (sync_key c) with
    | none => exact htail
    | some s =>
      dsimp only
      by_cases hc : is_conflict c s = true
      · rw [if_pos hc, List.pairwise_cons]
        refine ⟨?_, htail⟩
        intro q hq
        exact hdist.1 q.1 (mem_detect_parts hq).1
      · rw [if_neg hc]
        exact htail

/-- With pairwise-distinct client keys, the resolved winners have
pairwise-distinct keys. -/
theorem resolved_pairwise {cd : List SyncItem} (sc : List SyncItem)
    (strategy : String)
    (hdist : cd.Pairwise (fun a b => sync_key a ≠ sync_key b)) :
    (resolve_conflicts strategy (detect_conflicts cd sc)).Pairwise
      (fun a b => sync_key a ≠ sync_key b) := by
  unfold resolve_conflicts
  exact pairwise_map_of_key (fun p hp => resolve_one_key strategy hp)
    (detect_pairwise sc hdist)

/-- In a list with pairwise-distinct keys, equal keys force equal items. -/
theorem key_unique {cd : List SyncItem}
    (hdist : cd.Pairwise (fun a b => sync_key a ≠ sync_key b))
    {a b : SyncItem} (ha : a ∈ cd) (hb : b ∈ cd)
    (hk : sync_key a = sync_key b) : a = b := by
  by_contra hne
  have hsymm : Symmetric (fun a b : SyncItem => sync_key a ≠ sync_key b) :=
    fun x y h he => h he.symm
  exact (hdist.forall hsymm ha hb hne) hk

/-- Whether a client item is the losing side of one of its detected
conflicts: some detected conflict has it as client side and resolves to a
different item. -/
def is_conflict_loser (strategy : String) (cd sc : List SyncItem)
    (c : SyncItem) : Bool :=
  (detect_conflicts cd sc).any
    (fun p => decide (p.1 = c) && decide (resolve_one strategy p ≠ c))

/-- With pairwise-distinct client keys, a client change is skipped by the
apply loop exactly when it is the losing side of one of its detected
conflicts. -/
theorem is_skipped_iff_loser {cd : List SyncItem} (sc : List SyncItem)
    (strategy : String)
    (hdist : cd.Pairwise (fun a b => sync_key a ≠ sync_key b))
    {c : SyncItem} (hc : c ∈ cd) :
    is_skipped (resolve_conflicts strategy (detect_conflicts cd sc)) c =
      is_conflict_loser strategy cd sc c := by
  apply bool_eq_of_iff
  constructor
  · intro h
    unfold is_skipped at h
    cases hq : dict_lookup
        (resolve_conflicts strategy (detect_conflicts cd sc))
        (sync_key c) with
    | none => rw [hq] at h; dsimp only at h; cases h
    | some w =>
      rw [hq] at h
      dsimp only at h
      have hw : w ≠ c := of_decide_eq_true h
      obtain ⟨hmem, hkey⟩ := dict_lookup_mem hq
      unfold resolve_conflicts at hmem
      obtain ⟨p, hp, hfp⟩ := List.mem_map.mp hmem
      have hk1 : sync_key p.1 = sync_key c := by
        rw [← resolve_one_key strategy hp, hfp, hkey]
      have hp1 : p.1 = c :=
        key_unique hdist (mem_detect_parts hp).1 hc hk1
      unfold is_conflict_loser
      rw [List.any_eq_true]
      refine ⟨p, hp, ?_⟩
      rw [Bool.and_eq_true, decide_eq_true_eq, decide_eq_true_eq]
      exact ⟨hp1, by rw [hfp]; exact hw⟩
  · intro h
    unfold is_conflict_loser at h
    rw [List.any_eq_true] at h
    obtain ⟨p, hp, hb⟩ := h
    rw [Bool.and_eq_true, decide_eq_true_eq, decide_eq_true_eq] at hb
    obtain ⟨hp1, hne⟩ := hb
    have hkey : sync_key (resolve_one strategy p) = sync_key c := by
      rw [resolve_one_key strategy hp, hp1]
    have hmem : resolve_one strategy p ∈
        resolve_conflicts strategy (detect_conflicts cd sc) := by
      unfold resolve_conflicts
      exact List.mem_map_of_mem _ hp
    have hlk := dict_lookup_of_mem
      (resolved_pairwise sc strategy hdist) hmem hkey
    unfold is_skipped
    rw [hlk]
    dsimp only
    exact decide_eq_true hne

/-- The apply loop is the unconditional application of exactly the
non-skipped client changes, in order. -/
theorem apply_client_loop_filter (now : Int) (resolved : List SyncItem) :
    ∀ (cd : List SyncItem) (db : DB),
      apply_client_loop now resolved db cd =
        apply_sync_items now db
          (cd.filter (fun c => ! is_skipped resolved c)) := by
  intro cd
  induction cd with
  | nil => intro db; rfl
  | cons c rest ih =>
    intro db
    by_cases hs : is_skipped resolved c = true
    · rw [List.filter_cons]
      simp only [hs, Bool.not_true, Bool.false_eq_true, if_false]
      unfold apply_client_loop
      rw [if_pos hs]
      exact ih db
    · have hs' : is_skipped resolved c = false :=
        Bool.eq_false_iff.mpr hs
      rw [List.filter_cons]
      simp only [hs', Bool.not_false, if_true]
      unfold apply_client_loop apply_sync_items
      rw [if_neg hs]
      dsimp only
      rw [ih]

/-- Claim C6, amended: in the apply step, a client change is applied to
the backing store exactly when its key does not resolve to a different
winning change; when the client changes have pairwise-distinct keys, that
skip condition coincides with being the losing side of one's own detected
conflict (in particular a conflict resolved in favor of the server change
is skipped). -/
theorem apply_client_changes_conflict_skip :
    (∀ (now : Int) (db : DB) (uid : String) (cd resolved : List SyncItem),
       apply_client_changes now db uid cd resolved =
         apply_sync_items now db
           (cd.filter (fun c => ! is_skipped resolved c)))
    ∧ (∀ (cd sc : List SyncItem) (strategy : String),
       cd.Pairwise (fun a b => sync_key a ≠ sync_key b) →
       ∀ c ∈ cd,
         is_skipped (resolve_conflicts strategy (detect_conflicts cd sc)) c
           = is_conflict_loser strategy cd sc c) := by
  constructor
  · intro now db uid cd resolved
    exact apply_client_loop_filter now resolved cd db
  · intro cd sc strategy hdist c hc
    exact is_skipped_iff_loser sc strategy hdist hc

/-- Witness for the amended claim C6, at a one-conflict input. -/
theorem apply_client_changes_conflict_skip_witness :
    is_skipped (resolve_conflicts "server_wins"
        (detect_conflicts [newer_client] [older_server])) newer_client
      = is_conflict_loser "server_wins" [newer_client] [older_server]
          newer_client ∧
    apply_client_changes 0 empty_db "u1" [newer_client]
        (resolve_conflicts "server_wins"
          (detect_conflicts [newer_client] [older_server]))
      = apply_sync_items 0 empty_db
          ([newer_client].filter (fun c => ! is_skipped
            (resolve_conflicts "server_wins"
              (detect_conflicts [newer_client] [older_server])) c)) :=
  ⟨apply_client_changes_conflict_skip.2 [newer_client] [older_server]
      "server_wins" (by simp) newer_client (by simp),
   apply_client_changes_conflict_skip.1 0 empty_db "u1" [newer_client] _⟩

/-- Claim C6, counterexample: `untimed_client` shares its key with the
conflict of `newer_client` against `older_server` but is itself part of
no detected conflict (its timestamp is absent); the claim says it must be
applied, yet the apply step skips it — nothing at all is applied and the
store is untouched. -/
theorem nonconflict_change_skipped_cex :
    (detect_conflicts [newer_client, untimed_client] [older_server]).all
      (fun p => decide (p.1 ≠ untimed_client)) = true ∧
    is_skipped (resolve_conflicts "server_wins"
        (detect_conflicts [newer_client, untimed_client] [older_server]))
      untimed_client = true ∧
    apply_client_changes 200 empty_db "u1" [newer_client, untimed_client]
        (resolve_conflicts "server_wins"
          (detect_conflicts [newer_client, untimed_client] [older_server]))
      = (0, empty_db) := by
  decide

/-- Applying a profile's own exported dictionary back onto it only
re-materializes `settings or {}`; the other tracked columns keep their
values (a `None` export value is skipped by the is-not-None guard). -/
theorem apply_export_fields (p : Profile) :
    (([("user_id", Val.str p.user_id),
       ("display_name",
         match p.display_name with | some s => Val.str s | none => Val.null),
       ("preferred_level",
         match p.preferred_level with | some s => Val.str s | none => Val.null),
       ("settings", Val.dict (p.settings.getD []))] : Data).foldl
      apply_profile_field p)
    = { p with settings := some (p.settings.getD []) } := by
  obtain ⟨puid, pdn, ppl, pst, pts⟩ := p
  cases pdn <;> cases ppl <;> rfl


/-- Replacing the found row keeps it the first row found for its key. -/
theorem find_replace_profile {rows : List Profile} {uid : String}
    {p q : Profile}
    (hf : rows.find? (fun r => r.user_id == uid) = some p)
    (hq : q.user_id = uid) :
    (replace_profile rows uid q).find? (fun r => r.user_id == uid)
      = some q := by
  induction rows with
  | nil => simp [List.find?] at hf
  | cons r rs ih =>
    by_cases hr : (r.user_id == uid) = true
    · unfold replace_profile
      rw [if_pos hr]
      have hq' : (q.user_id == uid) = true := by simp [hq]
      simp only [List.find?_cons, hq']
    · have hr' : (r.user_id == uid) = false := by
        simpa using hr
      unfold replace_profile
      rw [if_neg hr]
      simp only [List.find?_cons, hr'] at hf ⊢
      exact ih hf

/-- An import of a snapshot only runs the profile table's import; the
other tables of the snapshot are untouched by `_import_table_data`. -/
theorem import_of_export (db : DB) (uid strategy : String) (now : Int) :
    (user_data_import db uid (export_user_data db uid) strategy now).2 =
      (export_table_data db uid "user_profiles").foldl
        (fun d item => update_profile d uid item now) db := by
  rfl
/-- The profile row after its own export dictionary has been re-applied:
only `settings` is re-materialized (as `settings or {}`) and `updated_at`
is refreshed by the commit. -/
def reimported_profile (p : Profile) (now : Int) : Profile :=
  { p with settings := some (p.settings.getD []), updated_at := now }

/-- Claim C8, amended: re-importing an owner's own export into the store
it was exported from is observation-preserving — the export taken after
the import equals the export before it, for either strategy value.  (The
`merge_strategy` argument, `replace` included, is ignored by the import:
it merges non-None snapshot fields through `update_profile` instead of
overwriting prior state, which is why the claim's full-overwrite reading
fails against a store that changed after the export.) -/
theorem export_import_roundtrip_observational (db : DB) (uid : String)
    (strategy : String) (now : Int) :
    export_user_data
      (user_data_import db uid (export_user_data db uid) strategy now).2 uid
      = export_user_data db uid := by
  rw [import_of_export]
  cases hf : db.profiles.find? (fun r => r.user_id == uid) with
  | none =>
    have h0 : export_table_data db uid "user_profiles" = [] := by
      unfold export_table_data
      rw [if_pos rfl, hf]
    rw [h0]
    rfl
  | some p =>
    have hpuid : p.user_id = uid := by
      simpa using List.find?_some hf
    have h1 : export_table_data db uid "user_profiles" =
        [[("user_id", Val.str p.user_id),
          ("display_name",
            match p.display_name with | some s => Val.str s | none => Val.null),
          ("preferred_level",
            match p.preferred_level with | some s => Val.str s | none => Val.null),
          ("settings", Val.dict (p.settings.getD []))]] := by
      unfold export_table_data
      rw [if_pos rfl, hf]
    rw [h1, List.foldl_cons, List.foldl_nil]
    have h2 : update_profile db uid
        [("user_id", Val.str p.user_id),
         ("display_name",
           match p.display_name with | some s => Val.str s | none => Val.null),
         ("preferred_level",
           match p.preferred_level with | some s => Val.str s | none => Val.null),
         ("settings", Val.dict (p.settings.getD []))] now =
        { db with
          profiles := replace_profile db.profiles uid (reimported_profile p now) } := by
      unfold update_profile
      rw [hf]
      dsimp only
      rw [apply_export_fields p]
      rfl
    rw [h2]
    have hf2 : (replace_profile db.profiles uid
          (reimported_profile p now)).find? (fun r => r.user_id == uid)
        = some (reimported_profile p now) :=
      find_replace_profile hf hpuid
    have htab : ∀ t, export_table_data
        { db with
          profiles := replace_profile db.profiles uid (reimported_profile p now) }
        uid t = export_table_data db uid t := by
      intro t
      unfold export_table_data
      by_cases ht : t = "user_profiles"
      · rw [if_pos ht, if_pos ht]
        dsimp only
        rw [hf2, hf]
        rfl
      · rw [if_neg ht, if_neg ht]
    unfold export_user_data
    simp only [htab]

/-- The store at export time: one profile with no display name. -/
def export_time_db : DB := ⟨[⟨"u1", none, none, some [], 10⟩], []⟩

/-- The store at import time: the same owner set a display name after the
export was taken. -/
def prior_state_db : DB := ⟨[⟨"u1", some "Bob", none, some [], 20⟩], []⟩

/-- Claim C8, counterexample: importing `export_time_db`'s snapshot into
`prior_state_db` with the `replace` strategy does not overwrite the
owner's prior state: the `display_name` that was None at export time
survives as "Bob", so the resulting state is observationally different
from the state at export time. -/
theorem import_replace_not_overwrite_cex :
    (user_data_import prior_state_db "u1"
        (export_user_data export_time_db "u1") "replace" 30).2.profiles
      = [⟨"u1", some "Bob", none, some [], 30⟩] ∧
    export_user_data
        (user_data_import prior_state_db "u1"
          (export_user_data export_time_db "u1") "replace" 30).2 "u1"
      ≠ export_user_data export_time_db "u1" := by
  decide
